import Mathlib

/-!
Shallow embedding of src/pyaqs.py (class AQSFetcher), a client for the EPA
Air Quality Services API, together with theorems settling the claims about
its request construction, response validation and tabulation behaviour.

Modelling conventions:
- Python strings are Lean String; the slice s[:-1] is pySliceDropLast.
- A parsed JSON response body is a Payload: the Header array (each element
  carrying its rows count) and the Data array of flat records; a record is
  an association list of column name to string value.  Methods that would
  raise an uncaught exception (IndexError on an empty Header array) return
  Except.error; methods whose only exceptional paths are the caught
  AssertionError / ValueError return plain outcomes.
- A pandas DataFrame is a DataFrame: the ordered list of records;
  DataFrame.rename maps every occurrence of a renamed column label.
- Each Python method is embedded as a state-passing function taking the
  receiver and returning the (unchanged, since no method assigns to self)
  receiver together with an Outcome: the list of messages printed and the
  optional returned dataframe.  The HTTP GET is mocked: the Response the
  transport would deliver for the built URL is an explicit argument, and
  the URL each method builds is embedded as its own definition.
-/

/-- Python str slice s[:-1]: drop the final character (empty on empty). -/
def pySliceDropLast (s : String) : String :=
  String.mk s.data.dropLast

/-- requests.codes.ok, the HTTP success status the assertions compare to. -/
def requests_codes_ok : Nat := 200

/-- One element of the Header array of a response body; the code reads its
rows field. -/
structure HeaderRow where
  rows : Nat
deriving DecidableEq

/-- A record of the Data array: an association list column name / value. -/
abbrev Record := List (String × String)

/-- A parsed JSON response body with its Header and Data keys. -/
structure Payload where
  header : List HeaderRow
  data : List Record
deriving DecidableEq

/-- The transport result of requests.get: status code and parsed body. -/
structure Response where
  status_code : Nat
  content : Payload
deriving DecidableEq

/-- A pandas dataframe: the ordered list of records. -/
structure DataFrame where
  records : List Record
deriving DecidableEq

/-- pd.DataFrame.from_records. -/
def DataFrame.from_records (rs : List Record) : DataFrame := ⟨rs⟩

/-- Look a column name up in a rename mapping; unmapped names are kept. -/
def renameKey (m : List (String × String)) (k : String) : String :=
  match m.find? (fun p => p.1 == k) with
  | some p => p.2
  | none => k

/-- df.rename(columns=m): every occurrence of a mapped column label, in
every record, is replaced by its image. -/
def DataFrame.rename (df : DataFrame) (m : List (String × String)) : DataFrame :=
  ⟨df.records.map (fun r => r.map (fun kv => (renameKey m kv.1, kv.2)))⟩

/-- Whether some record of the dataframe still carries column name c. -/
def DataFrame.hasCol (df : DataFrame) (c : String) : Bool :=
  df.records.any (fun r => r.any (fun kv => kv.1 == c))

/-- What a call was observed to do: the messages printed and the value
returned (none models the implicit None return of a failed call). -/
structure Outcome where
  printed : List String
  ret : Option DataFrame
deriving DecidableEq

/-- Outcome still carries column c in its returned table. -/
def outcomeHasCol (o : Outcome) (c : String) : Bool :=
  match o.ret with
  | some df => df.hasCol c
  | none => false

/-- As outcomeHasCol, through the possible uncaught-exception layer. -/
def exceptHasCol (r : Except String Outcome) (c : String) : Bool :=
  match r with
  | .ok o => outcomeHasCol o c
  | .error _ => false

/-- The AQSFetcher object: account email, key, base API url, and the
authentication stub derived once in the constructor. -/
structure AQSFetcher where
  email : String
  key : String
  api_url : String
  stub : String
deriving DecidableEq

/-- The default api_url of the constructor. -/
def default_api_url : String := "https://aqs.epa.gov/data/api"

/-- AQSFetcher.__init__: stores email, key, api_url and derives the stub
?email=...&key=... appended to every request. -/
def AQSFetcher.init (email key api_url : String) : AQSFetcher :=
  { email := email
    key := key
    api_url := api_url
    stub := "?email=" ++ email ++ "&key=" ++ key }

/-- The repeated search_params loop shared verbatim by the five methods
that take a parameter-code list: start from the string under construction,
append str(p) and a comma for each p, then drop the final character. -/
def paramLoop (params : List Nat) : String :=
  params.foldl (fun acc p => acc ++ toString p ++ ",") "&param="

/-- The finished param fragment: the loop result with its last character
sliced off (the trailing comma when the list is non-empty, the equals sign
itself when it is empty). -/
def paramSearchParams (params : List Nat) : String :=
  pySliceDropLast (paramLoop params)

/-- The same loop when the params argument is a bare Python string: the
for statement then iterates the characters of the string. -/
def paramLoopStr (s : String) : String :=
  s.data.foldl (fun acc c => acc ++ String.singleton c ++ ",") "&param="

/-- The finished param fragment for a bare-string params argument. -/
def paramSearchParamsStr (s : String) : String :=
  pySliceDropLast (paramLoopStr s)

/-- The try/except block shared by every method that checks the declared
row count: assert the status is ok (AssertionError prints Bad URL! and the
method returns None); read Header[0].rows (IndexError on an empty Header is
uncaught); raise ValueError when it is zero (caught, prints the no-match
message, returns None); otherwise tabulate Data and apply the method's
column renames. -/
def validateAndTabulate (response : Response) (renames : List (String × String)) :
    Except String Outcome :=
  if response.status_code = requests_codes_ok then
    match response.content.header with
    | [] => .error "IndexError"
    | h0 :: _ =>
      if h0.rows = 0 then
        .ok ⟨["No matching data could be found!"], none⟩
      else
        .ok ⟨[], some ((DataFrame.from_records response.content.data).rename renames)⟩
  else
    .ok ⟨["Bad URL!"], none⟩

/-- The tabulation done by get_cbsas and get_state_codes, whose try block
checks only the transport status: on ok, Data is tabulated and renamed with
no row-count check at all; otherwise Bad URL! is printed and None returned. -/
def statusOnlyTabulate (response : Response) (renames : List (String × String)) : Outcome :=
  if response.status_code = requests_codes_ok then
    ⟨[], some ((DataFrame.from_records response.content.data).rename renames)⟩
  else
    ⟨["Bad URL!"], none⟩

/-- URL built by get_cbsas. -/
def get_cbsas_url (f : AQSFetcher) : String :=
  f.api_url ++ "/list/cbsas" ++ f.stub

/-- AQSFetcher.get_cbsas. -/
def get_cbsas (f : AQSFetcher) (response : Response) : AQSFetcher × Outcome :=
  (f, statusOnlyTabulate response [("value_represented", "cbsa_name")])

/-- URL built by get_state_codes. -/
def get_state_codes_url (f : AQSFetcher) : String :=
  f.api_url ++ "/list/states" ++ f.stub

/-- AQSFetcher.get_state_codes. -/
def get_state_codes (f : AQSFetcher) (response : Response) : AQSFetcher × Outcome :=
  (f, statusOnlyTabulate response [("value_represented", "state_name")])

/-- URL built by get_counties_by_state. -/
def get_counties_by_state_url (f : AQSFetcher) (state : String) : String :=
  f.api_url ++ "/list/countiesByState" ++ f.stub ++ "&state=" ++ state

/-- AQSFetcher.get_counties_by_state. -/
def get_counties_by_state (f : AQSFetcher) (state : String) (response : Response) :
    AQSFetcher × Except String Outcome :=
  (f, validateAndTabulate response [("value_represented", "county_name")])

/-- URL built by get_sites_by_county. -/
def get_sites_by_county_url (f : AQSFetcher) (state county : String) : String :=
  f.api_url ++ "/list/sitesByCounty" ++ f.stub ++ "&state=" ++ state ++ "&county=" ++ county

/-- AQSFetcher.get_sites_by_county. -/
def get_sites_by_county (f : AQSFetcher) (state county : String) (response : Response) :
    AQSFetcher × Except String Outcome :=
  (f, validateAndTabulate response [("value_represented", "site_name")])

/-- URL built by get_parameter_classes. -/
def get_parameter_classes_url (f : AQSFetcher) : String :=
  f.api_url ++ "/list/classes" ++ f.stub

/-- AQSFetcher.get_parameter_classes.  Unlike every sibling method, its try
block encloses only the status assertion: the except clause prints Bad URL!
and then control FALLS THROUGH to the parsing code, so the body is
tabulated, renamed and returned whatever the status was. -/
def get_parameter_classes (f : AQSFetcher) (response : Response) : AQSFetcher × Outcome :=
  let msgs := if response.status_code = requests_codes_ok then [] else ["Bad URL!"]
  (f, ⟨msgs,
    some ((DataFrame.from_records response.content.data).rename
      [("code", "class_name"), ("value_represented", "class_description")])⟩)

/-- URL built by get_parameter_list_by_class. -/
def get_parameter_list_by_class_url (f : AQSFetcher) (pc : String) : String :=
  f.api_url ++ "/list/parametersByClass" ++ f.stub ++ "&pc=" ++ pc

/-- AQSFetcher.get_parameter_list_by_class. -/
def get_parameter_list_by_class (f : AQSFetcher) (pc : String) (response : Response) :
    AQSFetcher × Except String Outcome :=
  (f, validateAndTabulate response [("value_represented", "parameter_description")])

/-- search_params built by annual_data_by_cbsa: the param fragment then
bdate, edate, cbsa. -/
def annual_data_by_cbsa_search (params : List Nat) (cbsa_code bdate edate : String) : String :=
  paramSearchParams params ++ ("&bdate=" ++ bdate ++ "&edate=" ++ edate ++ "&cbsa=" ++ cbsa_code)

/-- URL built by annual_data_by_cbsa. -/
def annual_data_by_cbsa_url (f : AQSFetcher) (cbsa_code : String) (params : List Nat)
    (bdate edate : String) : String :=
  f.api_url ++ "/annualData/byCBSA" ++ f.stub ++ annual_data_by_cbsa_search params cbsa_code bdate edate

/-- AQSFetcher.annual_data_by_cbsa. -/
def annual_data_by_cbsa (f : AQSFetcher) (cbsa_code : String) (params : List Nat)
    (bdate edate : String) (response : Response) : AQSFetcher × Except String Outcome :=
  (f, validateAndTabulate response [])

/-- search_params built by annual_data_by_site: the param fragment then
state, county, bdate, edate, site. -/
def annual_data_by_site_search (params : List Nat) (state county site bdate edate : String) : String :=
  paramSearchParams params ++
    ("&state=" ++ state ++ "&county=" ++ county ++ "&bdate=" ++ bdate ++
      "&edate=" ++ edate ++ "&site=" ++ site)

/-- URL built by annual_data_by_site. -/
def annual_data_by_site_url (f : AQSFetcher) (state county site : String) (params : List Nat)
    (bdate edate : String) : String :=
  f.api_url ++ "/annualData/bySite" ++ f.stub ++
    annual_data_by_site_search params state county site bdate edate

/-- AQSFetcher.annual_data_by_site. -/
def annual_data_by_site (f : AQSFetcher) (state county site : String) (params : List Nat)
    (bdate edate : String) (response : Response) : AQSFetcher × Except String Outcome :=
  (f, validateAndTabulate response [])

/-- search_params built by annual_data_by_county: the param fragment then
state, county, bdate, edate. -/
def annual_data_by_county_search (params : List Nat) (state county bdate edate : String) : String :=
  paramSearchParams params ++
    ("&state=" ++ state ++ "&county=" ++ county ++ "&bdate=" ++ bdate ++ "&edate=" ++ edate)

/-- URL built by annual_data_by_county. -/
def annual_data_by_county_url (f : AQSFetcher) (state county : String) (params : List Nat)
    (bdate edate : String) : String :=
  f.api_url ++ "/annualData/byCounty" ++ f.stub ++
    annual_data_by_county_search params state county bdate edate

/-- AQSFetcher.annual_data_by_county. -/
def annual_data_by_county (f : AQSFetcher) (state county : String) (params : List Nat)
    (bdate edate : String) (response : Response) : AQSFetcher × Except String Outcome :=
  (f, validateAndTabulate response [])

/-- search_params built by annual_data_by_state: the param fragment then
state, bdate, edate. -/
def annual_data_by_state_search (params : List Nat) (state bdate edate : String) : String :=
  paramSearchParams params ++ ("&state=" ++ state ++ "&bdate=" ++ bdate ++ "&edate=" ++ edate)

/-- URL built by annual_data_by_state. -/
def annual_data_by_state_url (f : AQSFetcher) (state : String) (params : List Nat)
    (bdate edate : String) : String :=
  f.api_url ++ "/annualData/byState" ++ f.stub ++ annual_data_by_state_search params state bdate edate

/-- AQSFetcher.annual_data_by_state. -/
def annual_data_by_state (f : AQSFetcher) (state : String) (params : List Nat)
    (bdate edate : String) (response : Response) : AQSFetcher × Except String Outcome :=
  (f, validateAndTabulate response [])

/-- search_params built by get_monitors_at_site: the param fragment then
state, county, bdate, edate, site. -/
def get_monitors_at_site_search (params : List Nat) (state county site bdate edate : String) : String :=
  paramSearchParams params ++
    ("&state=" ++ state ++ "&county=" ++ county ++ "&bdate=" ++ bdate ++
      "&edate=" ++ edate ++ "&site=" ++ site)

/-- URL built by get_monitors_at_site. -/
def get_monitors_at_site_url (f : AQSFetcher) (state county site : String) (params : List Nat)
    (bdate edate : String) : String :=
  f.api_url ++ "/monitors/bySite" ++ f.stub ++
    get_monitors_at_site_search params state county site bdate edate

/-- AQSFetcher.get_monitors_at_site. -/
def get_monitors_at_site (f : AQSFetcher) (state county site : String) (params : List Nat)
    (bdate edate : String) (response : Response) : AQSFetcher × Except String Outcome :=
  (f, validateAndTabulate response [])

/-- Comma-terminated concatenation: what the loop has appended after the
param= marker, one element and one comma at a time. -/
def joinT : List String → String
  | [] => ""
  | x :: xs => x ++ "," ++ joinT xs

/-- Plain comma join of a list of strings, in order, nothing dropped. -/
def commaJoin : List String → String
  | [] => ""
  | [x] => x
  | x :: y :: xs => x ++ "," ++ commaJoin (y :: xs)

/-- A concrete fetcher built by the constructor with the default api_url. -/
def sampleFetcher : AQSFetcher :=
  AQSFetcher.init "user@example.com" "testkey" default_api_url

/-- An ok response whose header declares zero rows and whose Data is empty. -/
def respRowsZero : Response := ⟨200, ⟨[⟨0⟩], []⟩⟩

/-- An ok response with one declared row: the state-codes record for
Alabama. -/
def respOkOneRow : Response :=
  ⟨200, ⟨[⟨1⟩], [[("code", "01"), ("value_represented", "Alabama")]]⟩⟩

/-- A 404 response that nevertheless carries a parseable body with a
parameter-class record. -/
def respBad404 : Response :=
  ⟨404, ⟨[⟨5⟩], [[("code", "AQI"), ("value_represented", "AQI Pollutants")]]⟩⟩

/-- A 500 response that nevertheless carries a parseable body. -/
def respBad500 : Response :=
  ⟨500, ⟨[⟨2⟩], [[("parameter_code", "88101"), ("value_represented", "PM2.5 FRM")]]⟩⟩

theorem string_eq_of_data {s t : String} (h : s.data = t.data) : s = t := by
  cases s; cases t; exact congrArg String.mk h

theorem foldl_append_comma (xs : List String) : ∀ init : String,
    xs.foldl (fun a p => a ++ p ++ ",") init = init ++ joinT xs := by
  induction xs with
  | nil => intro init; simp [joinT]
  | cons x xs ih =>
    intro init
    simp only [List.foldl_cons, joinT, ih (init ++ x ++ ",")]
    simp [String.append_assoc]

theorem joinT_data (x : String) (xs : List String) :
    (joinT (x :: xs)).data = (commaJoin (x :: xs)).data ++ [','] := by
  induction xs generalizing x with
  | nil => simp [joinT, commaJoin, String.data_append]
  | cons y ys ih =>
    show (x ++ "," ++ joinT (y :: ys)).data = (x ++ "," ++ commaJoin (y :: ys)).data ++ [',']
    simp [String.data_append, ih y, List.append_assoc]

theorem pySlice_param_join (x : String) (xs : List String) :
    pySliceDropLast ("&param=" ++ joinT (x :: xs)) = "&param=" ++ commaJoin (x :: xs) := by
  apply string_eq_of_data
  show ("&param=" ++ joinT (x :: xs)).data.dropLast = ("&param=" ++ commaJoin (x :: xs)).data
  rw [String.data_append, joinT_data, String.data_append, ← List.append_assoc,
    List.dropLast_concat]

theorem paramLoop_eq_joinT (ps : List Nat) :
    paramLoop ps = "&param=" ++ joinT (ps.map toString) := by
  rw [paramLoop, ← List.foldl_map (fun p : Nat => toString p)
    (fun a s => a ++ s ++ ",") ps "&param=", foldl_append_comma]

theorem paramSearchParams_cons (p : Nat) (ps : List Nat) :
    paramSearchParams (p :: ps) = "&param=" ++ commaJoin ((p :: ps).map toString) := by
  rw [paramSearchParams, paramLoop_eq_joinT, List.map_cons, pySlice_param_join]

theorem paramLoopStr_eq_joinT (s : String) :
    paramLoopStr s = "&param=" ++ joinT (s.data.map String.singleton) := by
  rw [paramLoopStr, ← List.foldl_map (fun c : Char => String.singleton c)
    (fun a t => a ++ t ++ ",") s.data "&param=", foldl_append_comma]

theorem paramSearchParamsStr_cons (c : Char) (cs : List Char) :
    paramSearchParamsStr (String.mk (c :: cs)) =
      "&param=" ++ commaJoin ((c :: cs).map String.singleton) := by
  rw [paramSearchParamsStr, paramLoopStr_eq_joinT]
  show pySliceDropLast ("&param=" ++ joinT (List.map String.singleton (c :: cs))) = _
  rw [List.map_cons, pySlice_param_join]

theorem renameKey_single_ne (old nw k : String) (h : nw ≠ old) :
    renameKey [(old, nw)] k ≠ old := by
  by_cases hk : old = k
  · subst hk; simpa [renameKey, List.find?] using h
  · have hb : (old == k) = false := beq_eq_false_iff_ne.mpr hk
    simp only [renameKey, List.find?, hb]
    exact fun he => hk he.symm

theorem renameKey_classes_ne (k : String) :
    renameKey [("code", "class_name"), ("value_represented", "class_description")] k ≠ "code" ∧
    renameKey [("code", "class_name"), ("value_represented", "class_description")] k ≠
      "value_represented" := by
  by_cases h1 : "code" = k
  · subst h1
    constructor <;> simp [renameKey, List.find?]
  · by_cases h2 : "value_represented" = k
    · subst h2
      constructor <;> simp [renameKey, List.find?]
    · have hb1 : ("code" == k) = false := beq_eq_false_iff_ne.mpr h1
      have hb2 : ("value_represented" == k) = false := beq_eq_false_iff_ne.mpr h2
      simp only [renameKey, List.find?, hb1, hb2]
      exact ⟨fun he => h1 he.symm, fun he => h2 he.symm⟩

theorem hasCol_rename_false (recs : List Record) (m : List (String × String)) (c : String)
    (h : ∀ k, renameKey m k ≠ c) :
    ((DataFrame.from_records recs).rename m).hasCol c = false := by
  simp only [DataFrame.from_records, DataFrame.rename, DataFrame.hasCol]
  rw [List.any_eq_false]
  intro r hr
  rw [List.mem_map] at hr
  obtain ⟨r0, _, rfl⟩ := hr
  simp only [List.any_eq_true, not_exists, not_and]
  intro kv hkv
  rw [List.mem_map] at hkv
  obtain ⟨kv0, _, rfl⟩ := hkv
  simpa [beq_iff_eq] using h kv0.1

/-- Claim C1 (code bug witnessed): the spec invariant says a table is
returned only when the transport status was OK, the two outcomes being
mutually exclusive; evaluating get_parameter_classes at a 404 response
whose body still parses shows the call printing the Bad URL! transport
failure AND returning the renamed table, because its try block encloses
only the status assertion and parsing resumes after the except clause. -/
theorem get_parameter_classes_fails_exclusivity :
    (get_parameter_classes sampleFetcher respBad404).2 =
      ⟨["Bad URL!"],
        some ⟨[[("class_name", "AQI"), ("class_description", "AQI Pollutants")]]⟩⟩ := by
  rfl

/-- Claim C2 (code bug witnessed): the spec says a non-OK status yields a
TransportError failure and no table; get_parameter_classes at a 500
response prints the TransportError message yet still returns a table. -/
theorem get_parameter_classes_returns_table_on_error :
    (get_parameter_classes sampleFetcher respBad500).2.printed = ["Bad URL!"] ∧
    ((get_parameter_classes sampleFetcher respBad500).2.ret).isSome = true := by
  exact ⟨rfl, rfl⟩

/-- Claim C3: for the eight operations whose endpoint reports a row count
(countiesByState, sitesByCounty, parametersByClass, the four annual-data
operations and monitors), an OK status whose payload header first element
declares zero rows yields the NoMatchingData failure message and no
table. -/
theorem rows_zero_yields_no_matching_data (f : AQSFetcher)
    (state county site pc cbsa bdate edate : String) (ps : List Nat)
    (resp : Response) (hs : List HeaderRow)
    (hok : resp.status_code = requests_codes_ok)
    (hh : resp.content.header = ⟨0⟩ :: hs) :
    (get_counties_by_state f state resp).2 =
      .ok ⟨["No matching data could be found!"], none⟩ ∧
    (get_sites_by_county f state county resp).2 =
      .ok ⟨["No matching data could be found!"], none⟩ ∧
    (get_parameter_list_by_class f pc resp).2 =
      .ok ⟨["No matching data could be found!"], none⟩ ∧
    (annual_data_by_cbsa f cbsa ps bdate edate resp).2 =
      .ok ⟨["No matching data could be found!"], none⟩ ∧
    (annual_data_by_site f state county site ps bdate edate resp).2 =
      .ok ⟨["No matching data could be found!"], none⟩ ∧
    (annual_data_by_county f state county ps bdate edate resp).2 =
      .ok ⟨["No matching data could be found!"], none⟩ ∧
    (annual_data_by_state f state ps bdate edate resp).2 =
      .ok ⟨["No matching data could be found!"], none⟩ ∧
    (get_monitors_at_site f state county site ps bdate edate resp).2 =
      .ok ⟨["No matching data could be found!"], none⟩ := by
  simp [get_counties_by_state, get_sites_by_county, get_parameter_list_by_class,
    annual_data_by_cbsa, annual_data_by_site, annual_data_by_county,
    annual_data_by_state, get_monitors_at_site, validateAndTabulate, hok, hh]

/-- Witness for C3 at a concrete rows-zero response. -/
theorem rows_zero_yields_no_matching_data_witness :
    (get_counties_by_state sampleFetcher "01" respRowsZero).2 =
      .ok ⟨["No matching data could be found!"], none⟩ :=
  (rows_zero_yields_no_matching_data sampleFetcher "01" "001" "0001" "AQI" "10740"
    "20200101" "20201231" [88101] respRowsZero [] rfl rfl).1

/-- Claim C4: for get_cbsas and get_state_codes the status assertion is the
only failure check: on an OK status each tabulates and renames the Data
array unconditionally, whatever the header declares and even when Data is
empty. -/
theorem reference_lists_status_check_only (f : AQSFetcher) (resp : Response)
    (hok : resp.status_code = requests_codes_ok) :
    (get_cbsas f resp).2 =
      ⟨[], some ((DataFrame.from_records resp.content.data).rename
        [("value_represented", "cbsa_name")])⟩ ∧
    (get_state_codes f resp).2 =
      ⟨[], some ((DataFrame.from_records resp.content.data).rename
        [("value_represented", "state_name")])⟩ := by
  simp [get_cbsas, get_state_codes, statusOnlyTabulate, hok]

/-- Witness for C4 at an OK response declaring zero rows with empty Data:
both calls still return a (empty) table. -/
theorem reference_lists_status_check_only_witness :
    (get_cbsas sampleFetcher respRowsZero).2 = ⟨[], some ⟨[]⟩⟩ ∧
    (get_state_codes sampleFetcher respRowsZero).2 = ⟨[], some ⟨[]⟩⟩ :=
  ⟨((reference_lists_status_check_only sampleFetcher respRowsZero rfl).1).trans rfl,
    ((reference_lists_status_check_only sampleFetcher respRowsZero rfl).2).trans rfl⟩

/-- Claim C5: for every non-empty parameter-code list, every operation that
takes one serializes it into the single param= fragment by comma-joining
the decimal forms in the original order (commaJoin keeps order and keeps
duplicates); for the list 88101, 44201 the fragment is exactly
param=88101,44201 (after the leading field separator). -/
theorem param_list_comma_joined (ps : List Nat) (h : ps ≠ [])
    (state county site cbsa bdate edate : String) :
    paramSearchParams ps = "&param=" ++ commaJoin (ps.map toString) ∧
    paramSearchParams [88101, 44201] = "&" ++ "param=88101,44201" ∧
    annual_data_by_cbsa_search ps cbsa bdate edate =
      "&param=" ++ commaJoin (ps.map toString) ++
        ("&bdate=" ++ bdate ++ "&edate=" ++ edate ++ "&cbsa=" ++ cbsa) ∧
    annual_data_by_site_search ps state county site bdate edate =
      "&param=" ++ commaJoin (ps.map toString) ++
        ("&state=" ++ state ++ "&county=" ++ county ++ "&bdate=" ++ bdate ++
          "&edate=" ++ edate ++ "&site=" ++ site) ∧
    annual_data_by_county_search ps state county bdate edate =
      "&param=" ++ commaJoin (ps.map toString) ++
        ("&state=" ++ state ++ "&county=" ++ county ++ "&bdate=" ++ bdate ++
          "&edate=" ++ edate) ∧
    annual_data_by_state_search ps state bdate edate =
      "&param=" ++ commaJoin (ps.map toString) ++
        ("&state=" ++ state ++ "&bdate=" ++ bdate ++ "&edate=" ++ edate) ∧
    get_monitors_at_site_search ps state county site bdate edate =
      "&param=" ++ commaJoin (ps.map toString) ++
        ("&state=" ++ state ++ "&county=" ++ county ++ "&bdate=" ++ bdate ++
          "&edate=" ++ edate ++ "&site=" ++ site) := by
  obtain ⟨p, ps, rfl⟩ := List.exists_cons_of_ne_nil h
  have hmain := paramSearchParams_cons p ps
  refine ⟨hmain, rfl, ?_, ?_, ?_, ?_, ?_⟩ <;>
    simp only [annual_data_by_cbsa_search, annual_data_by_site_search,
      annual_data_by_county_search, annual_data_by_state_search,
      get_monitors_at_site_search, hmain]

/-- Witness for C5 at the list 88101, 44201 in the by-state search. -/
theorem param_list_comma_joined_witness :
    annual_data_by_state_search [88101, 44201] "06" "20200101" "20201231" =
      "&param=88101,44201&state=06&bdate=20200101&edate=20201231" :=
  ((param_list_comma_joined [88101, 44201] (by decide) "06" "001" "0001" "10740"
    "20200101" "20201231").2.2.2.2.2.1).trans rfl

/-- Claim C6: supplying an empty parameter-code list makes the final slice
eat the equals sign instead of a trailing comma: the fragment degenerates
to the bare key (the string named after the ampersand separator with no
value at all), so each of the five operations builds a malformed query in
which the separator is immediately followed by the dangling key param and
then the next separator, as the concrete by-state URL shows. -/
theorem empty_params_malformed (state county site cbsa bdate edate : String) :
    paramSearchParams [] = "&param" ∧
    annual_data_by_cbsa_search [] cbsa bdate edate =
      "&param" ++ ("&bdate=" ++ bdate ++ "&edate=" ++ edate ++ "&cbsa=" ++ cbsa) ∧
    annual_data_by_site_search [] state county site bdate edate =
      "&param" ++ ("&state=" ++ state ++ "&county=" ++ county ++ "&bdate=" ++ bdate ++
        "&edate=" ++ edate ++ "&site=" ++ site) ∧
    annual_data_by_county_search [] state county bdate edate =
      "&param" ++ ("&state=" ++ state ++ "&county=" ++ county ++ "&bdate=" ++ bdate ++
        "&edate=" ++ edate) ∧
    annual_data_by_state_search [] state bdate edate =
      "&param" ++ ("&state=" ++ state ++ "&bdate=" ++ bdate ++ "&edate=" ++ edate) ∧
    get_monitors_at_site_search [] state county site bdate edate =
      "&param" ++ ("&state=" ++ state ++ "&county=" ++ county ++ "&bdate=" ++ bdate ++
        "&edate=" ++ edate ++ "&site=" ++ site) ∧
    annual_data_by_state_url sampleFetcher "06" [] "20200101" "20201231" =
      "https://aqs.epa.gov/data/api/annualData/byState?email=user@example.com&key=testkey&param&state=06&bdate=20200101&edate=20201231" := by
  exact ⟨rfl, rfl, rfl, rfl, rfl, rfl, rfl⟩

/-- Claim C7: annual_data_by_state with state 06, params 88101, bdate
20200101, edate 20201231 appends after the authentication fragment exactly
the query portion param=88101, state=06, bdate=20200101, edate=20201231 in
that order; the URL is api_url, then the endpoint path, then the stub, then
the search params; and a rows-zero payload yields NoMatchingData and no
table. -/
theorem annual_by_state_scenario (f : AQSFetcher) (resp : Response) (hs : List HeaderRow)
    (hok : resp.status_code = requests_codes_ok)
    (hh : resp.content.header = ⟨0⟩ :: hs) :
    annual_data_by_state_search [88101] "06" "20200101" "20201231" =
      "&param=88101&state=06&bdate=20200101&edate=20201231" ∧
    (∀ (g : AQSFetcher) (state : String) (ps : List Nat) (b e : String),
      annual_data_by_state_url g state ps b e =
        g.api_url ++ "/annualData/byState" ++ g.stub ++
          annual_data_by_state_search ps state b e) ∧
    (annual_data_by_state f "06" [88101] "20200101" "20201231" resp).2 =
      .ok ⟨["No matching data could be found!"], none⟩ := by
  refine ⟨rfl, fun g state ps b e => rfl, ?_⟩
  simp [annual_data_by_state, validateAndTabulate, hok, hh]

/-- Witness for C7 at a concrete rows-zero response. -/
theorem annual_by_state_scenario_witness :
    (annual_data_by_state sampleFetcher "06" [88101] "20200101" "20201231" respRowsZero).2 =
      .ok ⟨["No matching data could be found!"], none⟩ :=
  (annual_by_state_scenario sampleFetcher respRowsZero [] rfl rfl).2.2

/-- Claim C8: for every reference-list operation and every payload it
tabulates, the column rename is total: no record of the returned table
retains the generic value_represented name (nor, for get_parameter_classes,
the generic code name), and get_state_codes on the one-record Alabama
payload returns the one-row table with columns code and state_name and
values 01 and Alabama. -/
theorem reference_rename_total (f : AQSFetcher) (state county pc : String)
    (resp : Response) (h0 : HeaderRow) (hs : List HeaderRow)
    (hok : resp.status_code = requests_codes_ok)
    (hh : resp.content.header = h0 :: hs) (hr : h0.rows ≠ 0) :
    outcomeHasCol (get_cbsas f resp).2 "value_represented" = false ∧
    outcomeHasCol (get_state_codes f resp).2 "value_represented" = false ∧
    exceptHasCol (get_counties_by_state f state resp).2 "value_represented" = false ∧
    exceptHasCol (get_sites_by_county f state county resp).2 "value_represented" = false ∧
    exceptHasCol (get_parameter_list_by_class f pc resp).2 "value_represented" = false ∧
    outcomeHasCol (get_parameter_classes f resp).2 "value_represented" = false ∧
    outcomeHasCol (get_parameter_classes f resp).2 "code" = false ∧
    (get_state_codes f respOkOneRow).2 =
      ⟨[], some ⟨[[("code", "01"), ("state_name", "Alabama")]]⟩⟩ := by
  have hv : ∀ nw : String, nw ≠ "value_represented" →
      ∀ k, renameKey [("value_represented", nw)] k ≠ "value_represented" :=
    fun nw hnw k => renameKey_single_ne "value_represented" nw k hnw
  refine ⟨?_, ?_, ?_, ?_, ?_, ?_, ?_, ?_⟩
  · simp only [get_cbsas, statusOnlyTabulate, hok, if_pos rfl, outcomeHasCol]
    exact hasCol_rename_false _ _ _ (hv "cbsa_name" (by decide))
  · simp only [get_state_codes, statusOnlyTabulate, hok, if_pos rfl, outcomeHasCol]
    exact hasCol_rename_false _ _ _ (hv "state_name" (by decide))
  · simp only [get_counties_by_state, validateAndTabulate, hok, if_pos rfl, hh, if_neg hr,
      exceptHasCol, outcomeHasCol]
    exact hasCol_rename_false _ _ _ (hv "county_name" (by decide))
  · simp only [get_sites_by_county, validateAndTabulate, hok, if_pos rfl, hh, if_neg hr,
      exceptHasCol, outcomeHasCol]
    exact hasCol_rename_false _ _ _ (hv "site_name" (by decide))
  · simp only [get_parameter_list_by_class, validateAndTabulate, hok, if_pos rfl, hh,
      if_neg hr, exceptHasCol, outcomeHasCol]
    exact hasCol_rename_false _ _ _ (hv "parameter_description" (by decide))
  · simp only [get_parameter_classes, hok, if_pos rfl, outcomeHasCol]
    exact hasCol_rename_false _ _ _ (fun k => (renameKey_classes_ne k).2)
  · simp only [get_parameter_classes, hok, if_pos rfl, outcomeHasCol]
    exact hasCol_rename_false _ _ _ (fun k => (renameKey_classes_ne k).1)
  · rfl

/-- Witness for C8: rename totality observed on a concrete payload, and
the Alabama scenario. -/
theorem reference_rename_total_witness :
    exceptHasCol (get_counties_by_state sampleFetcher "01" respOkOneRow).2
      "value_represented" = false ∧
    (get_state_codes sampleFetcher respOkOneRow).2 =
      ⟨[], some ⟨[[("code", "01"), ("state_name", "Alabama")]]⟩⟩ :=
  ⟨(reference_rename_total sampleFetcher "01" "001" "AQI" respOkOneRow ⟨1⟩ []
      rfl rfl (by decide)).2.2.1,
    (reference_rename_total sampleFetcher "01" "001" "AQI" respOkOneRow ⟨1⟩ []
      rfl rfl (by decide)).2.2.2.2.2.2.2⟩

/-- Claim C9: the constructor stores email, key, api_url and the derived
stub, the fragment email=...&key=... after the question mark; every public
operation returns the receiver unchanged whatever the response was, and
every built URL is the api_url, the endpoint path, the stored stub and the
query parameters, so the same stub is appended verbatim to every request. -/
theorem client_identity_immutable (f : AQSFetcher)
    (em k u state county site cbsa pc bdate edate : String)
    (ps : List Nat) (resp : Response) :
    ((AQSFetcher.init em k u).email = em ∧ (AQSFetcher.init em k u).key = k ∧
      (AQSFetcher.init em k u).api_url = u ∧
      (AQSFetcher.init em k u).stub = "?" ++ ("email=" ++ em ++ "&key=" ++ k)) ∧
    ((get_cbsas f resp).1 = f ∧
      (get_state_codes f resp).1 = f ∧
      (get_counties_by_state f state resp).1 = f ∧
      (get_sites_by_county f state county resp).1 = f ∧
      (get_parameter_classes f resp).1 = f ∧
      (get_parameter_list_by_class f pc resp).1 = f ∧
      (annual_data_by_cbsa f cbsa ps bdate edate resp).1 = f ∧
      (annual_data_by_site f state county site ps bdate edate resp).1 = f ∧
      (annual_data_by_county f state county ps bdate edate resp).1 = f ∧
      (annual_data_by_state f state ps bdate edate resp).1 = f ∧
      (get_monitors_at_site f state county site ps bdate edate resp).1 = f) ∧
    (get_cbsas_url f = f.api_url ++ "/list/cbsas" ++ f.stub ∧
      get_state_codes_url f = f.api_url ++ "/list/states" ++ f.stub ∧
      get_counties_by_state_url f state =
        f.api_url ++ "/list/countiesByState" ++ f.stub ++ "&state=" ++ state ∧
      get_sites_by_county_url f state county =
        f.api_url ++ "/list/sitesByCounty" ++ f.stub ++ "&state=" ++ state ++
          "&county=" ++ county ∧
      get_parameter_classes_url f = f.api_url ++ "/list/classes" ++ f.stub ∧
      get_parameter_list_by_class_url f pc =
        f.api_url ++ "/list/parametersByClass" ++ f.stub ++ "&pc=" ++ pc ∧
      annual_data_by_cbsa_url f cbsa ps bdate edate =
        f.api_url ++ "/annualData/byCBSA" ++ f.stub ++
          annual_data_by_cbsa_search ps cbsa bdate edate ∧
      annual_data_by_site_url f state county site ps bdate edate =
        f.api_url ++ "/annualData/bySite" ++ f.stub ++
          annual_data_by_site_search ps state county site bdate edate ∧
      annual_data_by_county_url f state county ps bdate edate =
        f.api_url ++ "/annualData/byCounty" ++ f.stub ++
          annual_data_by_county_search ps state county bdate edate ∧
      annual_data_by_state_url f state ps bdate edate =
        f.api_url ++ "/annualData/byState" ++ f.stub ++
          annual_data_by_state_search ps state bdate edate ∧
      get_monitors_at_site_url f state county site ps bdate edate =
        f.api_url ++ "/monitors/bySite" ++ f.stub ++
          get_monitors_at_site_search ps state county site bdate edate) := by
  exact ⟨⟨rfl, rfl, rfl, rfl⟩,
    ⟨rfl, rfl, rfl, rfl, rfl, rfl, rfl, rfl, rfl, rfl, rfl⟩,
    ⟨rfl, rfl, rfl, rfl, rfl, rfl, rfl, rfl, rfl, rfl, rfl⟩⟩

/-- Claim C10: the param serialization iterates the elements of whatever
params is and applies str to each before comma-joining, so a bare string
argument is iterated character by character: the fragment for the string
88101 comma-joins its five digits instead of the intended single code. -/
theorem bare_string_params_joins_characters :
    (∀ ps : List Nat, paramSearchParams ps =
      pySliceDropLast (ps.foldl (fun acc p => acc ++ toString p ++ ",") "&param=")) ∧
    (∀ (c : Char) (cs : List Char), paramSearchParamsStr (String.mk (c :: cs)) =
      "&param=" ++ commaJoin ((c :: cs).map String.singleton)) ∧
    paramSearchParamsStr "88101" = "&param=8,8,1,0,1" := by
  refine ⟨fun ps => rfl, fun c cs => paramSearchParamsStr_cons c cs, ?_⟩
  have h := paramSearchParamsStr_cons '8' ['8', '1', '0', '1']
  exact h.trans rfl
